import Mathlib

/-!
Shallow embedding of the django-sms-engine dispatch engine
(src/sms_engine/sms.py and src/sms_engine/settings.py).

Parts of the repository that the engine calls but that are not under src/
(models.SMS.dispatch, models.PRIORITY/STATUS/Log, utils.parse_priority,
utils.split_smss) are modelled from the spec; each such definition carries a
doc comment starting with "Modelled from the spec:".

Thread- and process-level fan-out is modelled sequentially: the properties
verified here (counts, final statuses, bucket contents, bulk-insert calls)
are invariant under the interleaving of the worker pools, which only permutes
the order in which workers append to the two result buckets.
-/

namespace SmsEngine

/-- Modelled from the spec: models.STATUS (models.py is not under src/), the
message status enumeration {queued, sent, failed}; the "none" state of the
data model is represented by `Option Status` being `none`. -/
inductive Status
  | sent
  | failed
  | queued
deriving DecidableEq

/-- Modelled from the spec: models.PRIORITY (models.py is not under src/),
the priority enumeration {low, medium, high, now}. -/
inductive Priority
  | low
  | medium
  | high
  | now
deriving DecidableEq

/-- Modelled from the spec: the numeric value backing each priority, ordered
"now > high > medium > low" (spec section 4.3); order_by on -priority sorts by
this value descending. -/
def Priority.toNat : Priority → Nat
  | .low => 0
  | .medium => 1
  | .high => 2
  | .now => 3

/-- The SMS row (models.SMS): identity, payload, scheduling state and the two
separately stored delivery-window bounds. Times of day are minute counts. -/
structure SMS where
  id : Nat
  «to» : String
  message : String
  description : String
  scheduled_time : Option Nat
  priority : Priority
  status : Option Status
  backend_alias : String
  start_of_delivery_window : Option Nat
  end_of_delivery_window : Option Nat
  response_data : Option String
deriving DecidableEq

/-- The Log row (models.Log): owning sms id, recorded outcome, human-readable
message and exception classification; the last two default to "". -/
structure Log where
  sms_id : Nat
  status : Status
  message : String
  exception_type : String
deriving DecidableEq

/-- A Python exception as the engine observes it: `name` models
type(e).__name__ and `msg` models str(e). -/
structure Exc where
  name : String
  msg : String
deriving DecidableEq

/-- The read-only Django settings consumed by settings.py and sms.py:
the SMS_ENGINE dict keys BACKENDS, BATCH_SIZE, LOG_LEVEL, DEFAULT_PRIORITY
(each `none` when the key is absent) and the project-level USE_TZ flag. -/
structure Config where
  backends : Option (List (String × String))
  batchSize : Option Nat
  logLevel : Option Nat
  defaultPriority : Option Priority
  useTZ : Bool
deriving DecidableEq

instance {ε α : Type} [DecidableEq ε] [DecidableEq α] : DecidableEq (Except ε α) :=
  fun x y =>
    match x, y with
    | .ok a, .ok b =>
      if h : a = b then .isTrue (congrArg _ h)
      else .isFalse (fun hc => h (Except.ok.inj hc))
    | .error a, .error b =>
      if h : a = b then .isTrue (congrArg _ h)
      else .isFalse (fun hc => h (Except.error.inj hc))
    | .ok _, .error _ => .isFalse (fun hc => Except.noConfusion hc)
    | .error _, .ok _ => .isFalse (fun hc => Except.noConfusion hc)

/-- The dotted path of the built-in no-op backend used as fallback. -/
def dummyBackendPath : String := "sms_engine.backends.DummyBackend"

/-- settings.get_available_backends. Returns the mapping together with the
post-call configuration: when BACKENDS is configured as an empty dict, the
Python code mutates that very dict in place (the statement
backends[defaultAlias] = dummy aliases the settings entry); when the BACKENDS
key is absent, the default {} supplied to dict.get is a fresh dict and the
mutation never touches the configuration. -/
def get_available_backends (cfg : Config) : List (String × String) × Config :=
  match cfg.backends with
  | none => ([("default", dummyBackendPath)], cfg)
  | some bs =>
    if bs.isEmpty then
      ([("default", dummyBackendPath)],
        { cfg with backends := some [("default", dummyBackendPath)] })
    else (bs, cfg)

/-- settings.get_backend: get_available_backends()[alias]; the Python KeyError
on an unregistered alias is modelled by `none`. -/
def get_backend (cfg : Config) (a : String) : Option String × Config :=
  let r := get_available_backends cfg
  (r.1.lookup a, r.2)

/-- settings.get_default_priority: the DEFAULT_PRIORITY key, or medium. -/
def get_default_priority (cfg : Config) : Priority :=
  cfg.defaultPriority.getD Priority.medium

/-- settings.get_log_level: the LOG_LEVEL key, or 1. -/
def get_log_level (cfg : Config) : Nat :=
  cfg.logLevel.getD 1

/-- Modelled from the spec: utils.parse_priority (utils.py is not under src/);
per spec section 4.2 creation "resolves priority default from configuration
when unset". -/
def parse_priority (cfg : Config) (p : Option Priority) : Priority :=
  p.getD (get_default_priority cfg)

/-- The alias keys of the available-backends mapping, as used by the
`backend not in get_available_backends().keys()` check of sms.create (the
returned mapping is the same whether or not the empty-dict mutation fired,
so the keys are insensitive to it). -/
def aliasKeys (cfg : Config) : List String :=
  (get_available_backends cfg).1.map Prod.fst

/-- Which of the three delivery-window validations of sms.create raised. -/
inductive WindowFault
  | notATime
  | useTZRequired
  | startNotBeforeEnd
deriving DecidableEq

/-- The ValueError raises of sms.py, told apart by raise site as in the spec
error taxonomy (section 7). -/
inductive EngineError
  | invalidBackend (a : String)
  | invalidDeliveryWindow (fault : WindowFault)
  | invalidArgument
deriving DecidableEq

/-- A value passed as a delivery-window bound: either a datetime.time value
(a time of day, modelled as minutes) or a value of some other runtime type,
which the isinstance check of sms.create rejects. -/
inductive PyVal
  | time (t : Nat)
  | other
deriving DecidableEq

/-- Whether the value is a datetime.time (the isinstance check). -/
def PyVal.isTime : PyVal → Bool
  | .time _ => true
  | .other => false

/-- The time-of-day payload; 0 for a non-time value (never reached by create,
whose isinstance check fires first). -/
def PyVal.val : PyVal → Nat
  | .time t => t
  | .other => 0

/-- sms.create. Returns the Python outcome paired with the post-call store:
either the raised error with the store untouched, or the built SMS with the
store extended when commit is set. `nextId` is the id the store would assign.
The guard order is that of the source: backend-alias check first, then the
three delivery-window checks. -/
def create (cfg : Config) (store : List SMS) (nextId : Nat)
    («to» msg description : String) (scheduled : Option Nat)
    (priority : Option Priority) (commit : Bool) (backend : String)
    (dw : Option (PyVal × PyVal)) : Except EngineError SMS × List SMS :=
  let pr := parse_priority cfg priority
  let st : Option Status := if pr = Priority.now then none else some Status.queued
  if backend ∈ aliasKeys cfg then
    match dw with
    | some (s, e) =>
      if s.isTime = false ∨ e.isTime = false then
        (Except.error (EngineError.invalidDeliveryWindow WindowFault.notATime), store)
      else if cfg.useTZ = false then
        (Except.error (EngineError.invalidDeliveryWindow WindowFault.useTZRequired), store)
      else if e.val ≤ s.val then
        (Except.error (EngineError.invalidDeliveryWindow WindowFault.startNotBeforeEnd), store)
      else
        let sms : SMS :=
          { id := nextId, «to» := «to», message := msg, description := description,
            scheduled_time := scheduled, priority := pr, status := st,
            backend_alias := backend, start_of_delivery_window := some s.val,
            end_of_delivery_window := some e.val, response_data := none }
        (Except.ok sms, if commit then store ++ [sms] else store)
    | none =>
      let sms : SMS :=
        { id := nextId, «to» := «to», message := msg, description := description,
          scheduled_time := scheduled, priority := pr, status := st,
          backend_alias := backend, start_of_delivery_window := none,
          end_of_delivery_window := none, response_data := none }
      (Except.ok sms, if commit then store ++ [sms] else store)
  else
    (Except.error (EngineError.invalidBackend backend), store)

/-- Modelled from the spec: the backend capability of section 6,
sendMessage(destination, content) -> responsePayload, failing with an error
carrying a description and a classification. -/
def BackendSend : Type := String → String → Except Exc String

/-- Modelled from the spec: backend resolution as the dispatch path sees it
(models.py is not under src/): an alias maps to its send capability, or to
none when unregistered. -/
def Behavior : Type := String → Option BackendSend

/-- Modelled from the spec: SMS.dispatch with commit=False as used by the bulk
worker (models.py is not under src/), per spec section 4.4: invoke the backend
with (destination, content); on success set status = sent and store the
response payload; on failure set status = failed and let the raised exception
reach the bulk caller, which catches it. The second component is the raised
exception, `none` on success. -/
def dispatchNoCommit (B : Behavior) (m : SMS) : SMS × Option Exc :=
  match B m.backend_alias with
  | none =>
    ({ m with status := some Status.failed }, some ⟨"KeyError", m.backend_alias⟩)
  | some f =>
    match f m.«to» m.message with
    | Except.ok resp =>
      ({ m with status := some Status.sent, response_data := some resp }, none)
    | Except.error e =>
      ({ m with status := some Status.failed }, some e)

/-- Whether dispatching the message raises (the worker lands it in the failed
bucket). -/
def dispatchFails (B : Behavior) (m : SMS) : Bool :=
  (dispatchNoCommit B m).2.isSome

/-- The exception a failing dispatch raises (junk value on success). -/
def excOf (B : Behavior) (m : SMS) : Exc :=
  (dispatchNoCommit B m).2.getD ⟨"", ""⟩

/-- Modelled from the spec: SMS.dispatch with commit=True, the synchronous
now-priority path (section 4.4): the backend error is swallowed, the message
keeps its final status, and one Log row is appended per the verbosity
(failed at log_level >= 1, sent at log_level = 2). -/
def dispatchCommit (B : Behavior) (ll : Nat) (m : SMS) : SMS × List Log :=
  match dispatchNoCommit B m with
  | (m1, none) =>
    (m1, if ll = 2 then [⟨m1.id, Status.sent, "", ""⟩] else [])
  | (m1, some e) =>
    (m1, if 1 ≤ ll then [⟨m1.id, Status.failed, e.msg, e.name⟩] else [])

/-- sms.send: parse the priority, reject the commit=False / priority=now
combination, create, and for priority now dispatch synchronously. Returns the
outcome (the sms and the Log rows its synchronous dispatch wrote) paired with
the post-call store. -/
def send (B : Behavior) (cfg : Config) (store : List SMS) (nextId : Nat)
    («to» msg description : String) (scheduled : Option Nat)
    (priority : Option Priority) (commit : Bool) (backend : String)
    (log_level : Option Nat) (dw : Option (PyVal × PyVal)) :
    Except EngineError (SMS × List Log) × List SMS :=
  let pr := parse_priority cfg priority
  let ll := log_level.getD (get_log_level cfg)
  if commit = false ∧ pr = Priority.now then
    (Except.error EngineError.invalidArgument, store)
  else
    match create cfg store nextId «to» msg description scheduled priority commit backend dw with
    | (Except.error e, store1) => (Except.error e, store1)
    | (Except.ok sms, store1) =>
      if pr = Priority.now then
        let r := dispatchCommit B ll sms
        (Except.ok (r.1, r.2), store1.map (fun x => if x.id = r.1.id then r.1 else x))
      else
        (Except.ok (sms, []), store1)

/-- A single wall-clock snapshot: timezone.now() as an absolute timestamp plus
its local time of day, taken once per get_queued invocation. -/
structure Now where
  ts : Nat
  tod : Nat
deriving DecidableEq

/-- The row filter of sms.get_queued: status queued, scheduled_time absent or
past, and the delivery-window test. A NULL bound makes the window comparison
false (SQL NULL semantics of Q(start__lte=t, end__gte=t)), so a row with
exactly one bound set is never selected. -/
def eligible (now : Now) (m : SMS) : Bool :=
  m.status == some Status.queued &&
  (match m.scheduled_time with
   | none => true
   | some t => t ≤ now.ts) &&
  (match m.start_of_delivery_window, m.end_of_delivery_window with
   | none, none => true
   | some s, some e => s ≤ now.tod && now.tod ≤ e
   | _, _ => false)

/-- The order_by(-priority, id) relation: higher numeric priority first, id
ascending within equal priority (non-strict, as the sort uses it). -/
def smsLE (a b : SMS) : Prop :=
  b.priority.toNat < a.priority.toNat ∨
    (a.priority.toNat = b.priority.toNat ∧ a.id ≤ b.id)

instance : DecidableRel smsLE := fun a b => by
  unfold smsLE; infer_instance

instance : IsTotal SMS smsLE :=
  ⟨fun a b => by unfold smsLE; omega⟩

instance : IsTrans SMS smsLE :=
  ⟨fun a b c hab hbc => by unfold smsLE at *; omega⟩

/-- The strict form of the ordering claim: priority strictly descending, id
strictly ascending within equal priority. -/
def smsBefore (a b : SMS) : Prop :=
  b.priority.toNat < a.priority.toNat ∨
    (a.priority.toNat = b.priority.toNat ∧ a.id < b.id)

/-- sms.get_queued: filter the store by the eligibility predicate at one `now`
snapshot, order by priority descending then id ascending, truncate to the
configured batch size (50 when BATCH_SIZE is absent). -/
def get_queued (cfg : Config) (store : List SMS) (now : Now) : List SMS :=
  ((store.filter (eligible now)).insertionSort smsLE).take (cfg.batchSize.getD 50)

/-- One bucketed dispatch pass of sms._send_bulk: the worker closure tries
sms.dispatch(commit=False) and appends the message to the sent bucket, or the
(message, exception) pair to the failed bucket. The thread pool is modelled
sequentially; bucket contents are interleaving-invariant. -/
def dispatchAll (B : Behavior) : List SMS → List SMS × List (SMS × Exc)
  | [] => ([], [])
  | m :: rest =>
    let r := dispatchAll B rest
    if dispatchFails B m then
      (r.1, ((dispatchNoCommit B m).1, excOf B m) :: r.2)
    else
      ((dispatchNoCommit B m).1 :: r.1, r.2)

/-- The observable outcome of one sms._send_bulk partition: the two buckets
(the saved final message states) and the Log.objects.bulk_create calls issued,
in order. -/
structure BulkOutcome where
  sent : List SMS
  failed : List (SMS × Exc)
  bulkCalls : List (List Log)
deriving DecidableEq

/-- sms._send_bulk: dispatch every message of the partition, save both buckets,
then issue one bulk-insert of failed-status Log rows when log_level >= 1 and
the list is non-empty, followed by one bulk-insert of sent-status Log rows when
log_level = 2 and that list is non-empty. Returns the outcome and the
(sent_count, failed_count) pair the function returns. -/
def _send_bulk (B : Behavior) (cfg : Config) (smss : List SMS)
    (log_level : Option Nat) : BulkOutcome × (Nat × Nat) :=
  let ll := log_level.getD (get_log_level cfg)
  let sf := dispatchAll B smss
  let failLogs : List Log :=
    sf.2.map (fun p => ⟨p.1.id, Status.failed, p.2.msg, p.2.name⟩)
  let sentLogs : List Log :=
    sf.1.map (fun m => ⟨m.id, Status.sent, "", ""⟩)
  let calls :=
    (if 1 ≤ ll ∧ failLogs ≠ [] then [failLogs] else []) ++
    (if ll = 2 ∧ sentLogs ≠ [] then [sentLogs] else [])
  (⟨sf.1, sf.2, calls⟩, (sf.1.length, sf.2.length))

/-- Modelled from the spec: utils.split_smss (utils.py is not under src/); per
spec section 4.5 step 5 the batch is split into contiguous sub-batches as
evenly as the remainder allows: consecutive chunks of ceil(N/p) messages.
The first argument is fuel, always instantiated with the list length; each
step consumes at least one element, so the fuel never runs out. -/
def chunkByAux (k : Nat) : Nat → List SMS → List (List SMS)
  | _, [] => []
  | 0, l => [l]
  | fuel + 1, m :: rest => (m :: rest.take (k - 1)) :: chunkByAux k fuel (rest.drop (k - 1))

/-- Modelled from the spec: contiguous chunks of k consecutive messages. -/
def chunkBy (k : Nat) (l : List SMS) : List (List SMS) :=
  chunkByAux k l.length l

/-- Modelled from the spec: the batch split of utils.split_smss. -/
def split_smss (smss : List SMS) (p : Nat) : List (List SMS) :=
  chunkBy ((smss.length + p - 1) / p) smss

/-- The observable outcome of one sms.send_queued invocation: the returned
(total_sent, total_failed) pair and the per-partition outcomes. -/
structure QueuedRun where
  counts : Nat × Nat
  partitions : List BulkOutcome
deriving DecidableEq

/-- sms.send_queued: select the eligible batch, resolve the log level, return
(0, 0) on an empty batch, cap the process count at the batch size, run a
single _send_bulk with the resolved log level when the cap is 1, and otherwise
split the batch and run one _send_bulk per partition with the default
log_level argument (the explicit argument is not forwarded). -/
def send_queued (B : Behavior) (cfg : Config) (store : List SMS) (now : Now)
    (processes : Nat) (log_level : Option Nat) : QueuedRun :=
  let q := get_queued cfg store now
  let ll := log_level.getD (get_log_level cfg)
  if q.isEmpty then
    ⟨(0, 0), []⟩
  else
    let procs := if q.length < processes then q.length else processes
    if procs = 1 then
      let r := _send_bulk B cfg q (some ll)
      ⟨r.2, [r.1]⟩
    else
      let rs := (split_smss q procs).map (fun part => _send_bulk B cfg part none)
      ⟨((rs.map (fun r => r.2.1)).sum, (rs.map (fun r => r.2.2)).sum),
        rs.map (fun r => r.1)⟩

/-! Concrete fixtures used by the witnesses and counterexamples. -/

/-- A configuration with every SMS_ENGINE key absent and USE_TZ on. -/
def cfgD : Config := ⟨none, none, none, none, true⟩

/-- A configuration whose BACKENDS key is configured as an empty dict. -/
def cfgEmptyB : Config := ⟨some [], none, none, none, true⟩

/-- A configuration with BATCH_SIZE = 1. -/
def cfgB1 : Config := ⟨none, some 1, none, none, true⟩

/-- A backend send capability that always succeeds. -/
def bOK : BackendSend := fun _ _ => Except.ok "delivered"

/-- A backend send capability that always raises. -/
def bFail : BackendSend := fun _ _ =>
  Except.error ⟨"SendSMSError", "SMS sending error"⟩

/-- A behavior with a succeeding alias "ok", a failing alias "bad", and no
other aliases. -/
def bMix : Behavior := fun a =>
  if a = "ok" then some bOK else if a = "bad" then some bFail else none

/-- A queued message with no schedule and no delivery window. -/
def mkQueued (i : Nat) (p : Priority) (a : String) : SMS :=
  ⟨i, "dst", "body", "", none, p, some Status.queued, a, none, none, none⟩

/-- A fixed wall-clock snapshot. -/
def now0 : Now := ⟨100, 600⟩

/-- Whether a create outcome is one of the three delivery-window ValueErrors. -/
def isWindowError (r : Except EngineError SMS × List SMS) : Bool :=
  match r.1 with
  | Except.error (EngineError.invalidDeliveryWindow _) => true
  | _ => false

/-- The stored delivery-window bounds of a successful create outcome. -/
def windowOf (r : Except EngineError SMS) : Option (Option Nat × Option Nat) :=
  match r with
  | Except.ok sms => some (sms.start_of_delivery_window, sms.end_of_delivery_window)
  | Except.error _ => none

/-! Helper lemmas shared by the claim theorems. -/

theorem dispatchNoCommit_id (B : Behavior) (m : SMS) :
    (dispatchNoCommit B m).1.id = m.id := by
  unfold dispatchNoCommit
  cases hB : B m.backend_alias with
  | none => simp
  | some f => cases hf : f m.«to» m.message <;> simp [hf]

theorem dispatchNoCommit_status (B : Behavior) (m : SMS) :
    (dispatchNoCommit B m).1.status =
      some (if dispatchFails B m then Status.failed else Status.sent) := by
  unfold dispatchFails dispatchNoCommit
  cases hB : B m.backend_alias with
  | none => simp
  | some f => cases hf : f m.«to» m.message <;> simp [hf]

theorem dispatchAll_sent (B : Behavior) (l : List SMS) :
    (dispatchAll B l).1 =
      (l.filter fun m => !(dispatchFails B m)).map fun m => (dispatchNoCommit B m).1 := by
  induction l with
  | nil => rfl
  | cons m rest ih =>
    cases h : dispatchFails B m <;>
      simp [dispatchAll, h, List.filter_cons, ih]

theorem dispatchAll_failed (B : Behavior) (l : List SMS) :
    (dispatchAll B l).2 =
      (l.filter (dispatchFails B)).map fun m => ((dispatchNoCommit B m).1, excOf B m) := by
  induction l with
  | nil => rfl
  | cons m rest ih =>
    cases h : dispatchFails B m <;>
      simp [dispatchAll, h, List.filter_cons, ih]

theorem length_filter_not_add {α : Type} (p : α → Bool) (l : List α) :
    (l.filter fun a => !(p a)).length + (l.filter p).length = l.length := by
  induction l with
  | nil => rfl
  | cons a l ih =>
    cases h : p a <;> simp [List.filter_cons, h] <;> omega

theorem create_error_not_invalidArgument (cfg : Config) (store : List SMS)
    (nextId : Nat) (t m d : String) (sch : Option Nat) (pr : Option Priority)
    (commit : Bool) (backend : String) (dw : Option (PyVal × PyVal)) :
    (create cfg store nextId t m d sch pr commit backend dw).1 ≠
      Except.error EngineError.invalidArgument := by
  unfold create
  repeat' split
  all_goals simp

/-! Claim theorems. -/

/-- C9 counterexample: the Backend Registry operations are not free of side
effects on every configuration state; when BACKENDS is configured as an empty
dict, get_available_backends mutates the configured mapping in place,
installing the dummy default entry. -/
theorem get_available_backends_mutates :
    (get_available_backends cfgEmptyB).2 ≠ cfgEmptyB ∧
    (get_available_backends cfgEmptyB).2.backends =
      some [("default", dummyBackendPath)] := by
  decide

/-- C9 (amended): get_available_backends and get_backend return equal results
on two successive calls and the second call changes nothing; the BACKENDS
mapping is left unchanged except when it is configured as an explicitly empty
dict, in which case the first call installs the dummy default entry into it;
with no backends configured the dummy backend is returned under the default
alias and the configuration is untouched. -/
theorem backend_registry_stable (cfg : Config) (a : String) :
    (get_available_backends (get_available_backends cfg).2).1 =
      (get_available_backends cfg).1 ∧
    (get_available_backends (get_available_backends cfg).2).2 =
      (get_available_backends cfg).2 ∧
    ((get_available_backends cfg).2 = cfg ∨
      (cfg.backends = some [] ∧
        (get_available_backends cfg).2 =
          { cfg with backends := some [("default", dummyBackendPath)] })) ∧
    (cfg.backends = none →
      (get_available_backends cfg).1 = [("default", dummyBackendPath)] ∧
      (get_available_backends cfg).2 = cfg) ∧
    get_backend (get_backend cfg a).2 a = get_backend cfg a := by
  cases hb : cfg.backends with
  | none => simp [get_available_backends, get_backend, hb]
  | some bs =>
    cases bs with
    | nil => simp [get_available_backends, get_backend, hb]
    | cons x xs => simp [get_available_backends, get_backend, hb]

/-- C9 witness: the amended stability facts evaluated at the default
configuration. -/
theorem backend_registry_stable_witness :
    (get_available_backends (get_available_backends cfgD).2).1 =
      (get_available_backends cfgD).1 ∧
    (get_available_backends cfgD).1 = [("default", dummyBackendPath)] ∧
    (get_available_backends cfgD).2 = cfgD ∧
    get_backend (get_backend cfgD "default").2 "default" =
      get_backend cfgD "default" := by
  have h := backend_registry_stable cfgD "default"
  exact ⟨h.1, (h.2.2.2.1 rfl).1, (h.2.2.2.1 rfl).2, h.2.2.2.2⟩

/-- C6 counterexample: the claim extends to send, but a send call whose
backend alias is unregistered does not fail with the invalid-backend error
when commit=false and priority resolves to now; the invalid-argument check
fires first. -/
theorem send_unregistered_alias_cex :
    ("bogus" ∉ aliasKeys cfgD) ∧
    send bMix cfgD [] 1 "d" "c" "" none (some Priority.now) false "bogus" none none
      = (Except.error EngineError.invalidArgument, []) ∧
    (send bMix cfgD [] 1 "d" "c" "" none (some Priority.now) false "bogus" none none).1
      ≠ Except.error (EngineError.invalidBackend "bogus") := by
  decide

/-- C6 (amended): a create call with an unregistered backend alias always
fails with the invalid-backend error before any delivery-window validation,
leaving the store unchanged and constructing no message; a send call does the
same except when commit=false and priority resolves to now, where the
invalid-argument failure precedes the backend check. -/
theorem create_unregistered_alias (cfg : Config) (store : List SMS)
    (nextId : Nat) (t m d : String) (sch : Option Nat) (pr : Option Priority)
    (commit : Bool) (backend : String) (dw : Option (PyVal × PyVal))
    (B : Behavior) (ll : Option Nat) (h : backend ∉ aliasKeys cfg) :
    create cfg store nextId t m d sch pr commit backend dw
      = (Except.error (EngineError.invalidBackend backend), store) ∧
    (commit = true ∨ parse_priority cfg pr ≠ Priority.now →
      send B cfg store nextId t m d sch pr commit backend ll dw
        = (Except.error (EngineError.invalidBackend backend), store)) := by
  have hc : create cfg store nextId t m d sch pr commit backend dw
      = (Except.error (EngineError.invalidBackend backend), store) := by
    unfold create
    rw [if_neg h]
  refine ⟨hc, fun h2 => ?_⟩
  have hcond : ¬(commit = false ∧ parse_priority cfg pr = Priority.now) := by
    rcases h2 with h2 | h2 <;> simp [h2]
  unfold send
  rw [if_neg hcond, hc]

/-- C6 witness: the amended statement evaluated with the unregistered alias
"bogus" against the default configuration. -/
theorem create_unregistered_alias_witness :
    ("bogus" ∉ aliasKeys cfgD) ∧
    create cfgD [] 1 "d" "c" "" none none true "bogus" none
      = (Except.error (EngineError.invalidBackend "bogus"), []) ∧
    send bMix cfgD [] 1 "d" "c" "" none none true "bogus" none none
      = (Except.error (EngineError.invalidBackend "bogus"), []) := by
  have h := create_unregistered_alias cfgD [] 1 "d" "c" "" none none true
    "bogus" none bMix none (by decide)
  exact ⟨by decide, h.1, h.2 (Or.inl rfl)⟩

/-- C7: send fails with the invalid-argument error, before creating or
dispatching anything, exactly when commit=false and the priority resolves to
now; in every other combination of commit and resolved priority the result is
never that error. -/
theorem send_invalid_argument (B : Behavior) (cfg : Config) (store : List SMS)
    (nextId : Nat) (t m d : String) (sch : Option Nat) (pr : Option Priority)
    (commit : Bool) (backend : String) (ll : Option Nat)
    (dw : Option (PyVal × PyVal)) :
    (commit = false ∧ parse_priority cfg pr = Priority.now →
      send B cfg store nextId t m d sch pr commit backend ll dw
        = (Except.error EngineError.invalidArgument, store)) ∧
    (commit = true ∨ parse_priority cfg pr ≠ Priority.now →
      (send B cfg store nextId t m d sch pr commit backend ll dw).1
        ≠ Except.error EngineError.invalidArgument) := by
  constructor
  · intro h
    unfold send
    rw [if_pos h]
  · intro h2
    have hcond : ¬(commit = false ∧ parse_priority cfg pr = Priority.now) := by
      rcases h2 with h2 | h2 <;> simp [h2]
    have hcreate := create_error_not_invalidArgument cfg store nextId t m d sch
      pr commit backend dw
    unfold send
    rw [if_neg hcond]
    rcases hc : create cfg store nextId t m d sch pr commit backend dw with
      ⟨r, store1⟩
    rw [hc] at hcreate
    cases r with
    | error e =>
      simpa using hcreate
    | ok sms =>
      by_cases hnow : parse_priority cfg pr = Priority.now <;> simp [hnow]

/-- C7 witness: the invalid-argument failure at commit=false, priority=now,
and its absence at commit=true on otherwise identical arguments. -/
theorem send_invalid_argument_witness :
    (false = false ∧ parse_priority cfgD (some Priority.now) = Priority.now) ∧
    send bMix cfgD [] 1 "d" "c" "" none (some Priority.now) false "ok" none none
      = (Except.error EngineError.invalidArgument, []) ∧
    (send bMix cfgD [] 1 "d" "c" "" none (some Priority.now) true "ok" none none).1
      ≠ Except.error EngineError.invalidArgument := by
  have h1 := send_invalid_argument bMix cfgD [] 1 "d" "c" "" none
    (some Priority.now) false "ok" none none
  have h2 := send_invalid_argument bMix cfgD [] 1 "d" "c" "" none
    (some Priority.now) true "ok" none none
  exact ⟨⟨rfl, by decide⟩, h1.1 ⟨rfl, by decide⟩, h2.2 (Or.inl rfl)⟩

/-- C8: with a registered backend alias, a create call carrying a delivery
window (start, end) fails with the invalid-delivery-window error exactly when
start or end is not a time-of-day value, or USE_TZ is off, or start >= end;
when it does not fail the created message stores both bounds, and with no
delivery window both bounds are left unset. -/
theorem create_delivery_window (cfg : Config) (store : List SMS) (nextId : Nat)
    (t m d : String) (sch : Option Nat) (pr : Option Priority) (commit : Bool)
    (backend : String) (s e : PyVal) (h : backend ∈ aliasKeys cfg) :
    (isWindowError
        (create cfg store nextId t m d sch pr commit backend (some (s, e))) = true ↔
      (s.isTime = false ∨ e.isTime = false ∨ cfg.useTZ = false ∨ e.val ≤ s.val)) ∧
    (isWindowError
        (create cfg store nextId t m d sch pr commit backend (some (s, e))) = false →
      windowOf (create cfg store nextId t m d sch pr commit backend (some (s, e))).1
        = some (some s.val, some e.val)) ∧
    windowOf (create cfg store nextId t m d sch pr commit backend none).1
      = some (none, none) := by
  unfold create
  rw [if_pos h, if_pos h]
  dsimp only
  by_cases h1 : s.isTime = false ∨ e.isTime = false
  · rw [if_pos h1]
    rcases h1 with h1 | h1 <;> simp [isWindowError, windowOf, h1]
  · rw [if_neg h1]
    simp only [not_or, Bool.not_eq_false] at h1
    obtain ⟨hs, he⟩ := h1
    by_cases h2 : cfg.useTZ = false
    · rw [if_pos h2]
      simp [isWindowError, windowOf, hs, he, h2]
    · rw [if_neg h2]
      by_cases h3 : PyVal.val e ≤ PyVal.val s
      · rw [if_pos h3]
        simp [isWindowError, windowOf, hs, he, h2, h3]
      · rw [if_neg h3]
        simp [isWindowError, windowOf, hs, he, h2, h3]

/-- C8 witness: a valid window is stored, and the failure classifier evaluates
as the theorem states, at the default configuration. -/
theorem create_delivery_window_witness :
    ("default" ∈ aliasKeys cfgD) ∧
    (isWindowError (create cfgD [] 1 "d" "c" "" none none true "default"
        (some (PyVal.time 540, PyVal.time 1020))) = true ↔
      ((PyVal.time 540).isTime = false ∨ (PyVal.time 1020).isTime = false ∨
        cfgD.useTZ = false ∨ (PyVal.time 1020).val ≤ (PyVal.time 540).val)) ∧
    windowOf (create cfgD [] 1 "d" "c" "" none none true "default"
        (some (PyVal.time 540, PyVal.time 1020))).1
      = some (some 540, some 1020) ∧
    windowOf (create cfgD [] 1 "d" "c" "" none none true "default" none).1
      = some (none, none) := by
  have h := create_delivery_window cfgD [] 1 "d" "c" "" none none true
    "default" (PyVal.time 540) (PyVal.time 1020) (by decide)
  exact ⟨by decide, h.1, h.2.1 (by decide), h.2.2⟩

theorem pairwise_and_of {α : Type} {R S : α → α → Prop} {l : List α}
    (hR : l.Pairwise R) (hS : l.Pairwise S) :
    l.Pairwise fun a b => R a b ∧ S a b := by
  induction l with
  | nil => exact List.Pairwise.nil
  | cons a l ih =>
    rcases List.pairwise_cons.mp hR with ⟨hRa, hR2⟩
    rcases List.pairwise_cons.mp hS with ⟨hSa, hS2⟩
    exact List.pairwise_cons.mpr ⟨fun b hb => ⟨hRa b hb, hSa b hb⟩, ih hR2 hS2⟩

/-- C2 counterexample: with BATCH_SIZE = 1 and two eligible queued messages,
the second message satisfies the selection predicate at the same snapshot yet
is not in the returned sequence, because the result is truncated to the
configured batch size. -/
theorem get_queued_truncates_cex :
    eligible now0 (mkQueued 2 Priority.medium "ok") = true ∧
    mkQueued 2 Priority.medium "ok" ∈
      [mkQueued 1 Priority.medium "ok", mkQueued 2 Priority.medium "ok"] ∧
    mkQueued 2 Priority.medium "ok" ∉
      get_queued cfgB1
        [mkQueued 1 Priority.medium "ok", mkQueued 2 Priority.medium "ok"] now0 := by
  decide

/-- C2 (amended): whenever the number of eligible messages does not exceed the
configured batch size (50 when unset), a message is in the sequence returned
by get_queued iff it is stored and, at the single now snapshot taken for the
whole invocation, its status is queued, its scheduled_time is unset or at most
now, and its delivery window is unset or contains the time of day of now with
both bounds inclusive; with more eligible messages than the batch size, only
the first batch in priority/id order is returned. -/
theorem get_queued_mem_iff (cfg : Config) (store : List SMS) (now : Now)
    (m : SMS)
    (h : (store.filter (eligible now)).length ≤ cfg.batchSize.getD 50) :
    m ∈ get_queued cfg store now ↔ m ∈ store ∧ eligible now m = true := by
  unfold get_queued
  rw [List.take_of_length_le (by rw [List.length_insertionSort]; exact h)]
  rw [List.mem_insertionSort]
  exact List.mem_filter

/-- C2 witness: the amended membership criterion evaluated on a singleton
store under the default configuration. -/
theorem get_queued_mem_iff_witness :
    (([mkQueued 1 Priority.medium "ok"].filter (eligible now0)).length ≤
      cfgD.batchSize.getD 50) ∧
    (mkQueued 1 Priority.medium "ok" ∈
        get_queued cfgD [mkQueued 1 Priority.medium "ok"] now0 ↔
      mkQueued 1 Priority.medium "ok" ∈ [mkQueued 1 Priority.medium "ok"] ∧
        eligible now0 (mkQueued 1 Priority.medium "ok") = true) :=
  ⟨by decide, get_queued_mem_iff cfgD _ now0 _ (by decide)⟩

/-- C3: when stored message ids are distinct, the sequence returned by
get_queued is strictly sorted by priority descending and id ascending within
equal priority, and its length never exceeds the configured batch size, which
defaults to 50 when BATCH_SIZE is not configured. -/
theorem get_queued_sorted (cfg : Config) (store : List SMS) (now : Now)
    (h : (store.map SMS.id).Nodup) :
    (get_queued cfg store now).Pairwise smsBefore ∧
    (get_queued cfg store now).length ≤ cfg.batchSize.getD 50 := by
  have hsort : List.Sorted smsLE
      ((store.filter (eligible now)).insertionSort smsLE) :=
    List.sorted_insertionSort smsLE _
  have hsub : (store.filter (eligible now)).Sublist store :=
    List.filter_sublist _
  have h2 : ((store.filter (eligible now)).map SMS.id).Nodup :=
    h.sublist (hsub.map SMS.id)
  have hperm : ((store.filter (eligible now)).insertionSort smsLE).Perm
      (store.filter (eligible now)) :=
    List.perm_insertionSort smsLE _
  have h3 : (((store.filter (eligible now)).insertionSort smsLE).map
      SMS.id).Nodup :=
    ((hperm.map SMS.id).nodup_iff).mpr h2
  have h4 : ((store.filter (eligible now)).insertionSort smsLE).Pairwise
      fun a b => a.id ≠ b.id := List.pairwise_map.mp h3
  have h5 : ((store.filter (eligible now)).insertionSort smsLE).Pairwise
      smsBefore := by
    refine (pairwise_and_of hsort h4).imp ?_
    intro a b hab
    obtain ⟨hle, hne⟩ := hab
    unfold smsLE at hle
    unfold smsBefore
    omega
  constructor
  · exact h5.sublist (List.take_sublist _ _)
  · unfold get_queued
    rw [List.length_take]
    exact Nat.min_le_left _ _

/-- C3 witness: the ordering and bound evaluated on a three-message store of
mixed priorities under the default configuration. -/
theorem get_queued_sorted_witness :
    (([mkQueued 1 Priority.low "ok", mkQueued 2 Priority.high "ok",
        mkQueued 3 Priority.medium "ok"].map SMS.id).Nodup) ∧
    ((get_queued cfgD [mkQueued 1 Priority.low "ok",
        mkQueued 2 Priority.high "ok", mkQueued 3 Priority.medium "ok"]
        now0).Pairwise smsBefore ∧
      (get_queued cfgD [mkQueued 1 Priority.low "ok",
        mkQueued 2 Priority.high "ok", mkQueued 3 Priority.medium "ok"]
        now0).length ≤ cfgD.batchSize.getD 50) :=
  ⟨by decide, get_queued_sorted cfgD _ now0 (by decide)⟩

theorem dispatchAll_statuses (B : Behavior) (l : List SMS) :
    ((dispatchAll B l).1.all fun m => m.status == some Status.sent) = true ∧
    ((dispatchAll B l).2.all fun p => p.1.status == some Status.failed) = true := by
  constructor
  · rw [dispatchAll_sent]
    simp only [List.all_eq_true, List.mem_map, List.mem_filter]
    rintro m ⟨m0, ⟨hm0, hf⟩, rfl⟩
    have hff : dispatchFails B m0 = false := by simpa using hf
    rw [dispatchNoCommit_status, hff]
    simp
  · rw [dispatchAll_failed]
    simp only [List.all_eq_true, List.mem_map, List.mem_filter]
    rintro p ⟨m0, ⟨hm0, hf⟩, rfl⟩
    rw [dispatchNoCommit_status, hf]
    simp

/-- C1: send_queued with processes=1 returns (N - K, K), where N is the size
of the selected batch and K the number of its messages whose backend send
raises; every message of the failed bucket ends with status failed and every
message of the sent bucket ends with status sent (so an always-succeeding
backend gives (N, 0) and an empty selected batch gives (0, 0)). -/
theorem send_queued_single (B : Behavior) (cfg : Config) (store : List SMS)
    (now : Now) (ll : Option Nat) :
    (send_queued B cfg store now 1 ll).counts =
      ((get_queued cfg store now).length -
        ((get_queued cfg store now).filter (dispatchFails B)).length,
       ((get_queued cfg store now).filter (dispatchFails B)).length) ∧
    ((send_queued B cfg store now 1 ll).partitions.all fun o =>
      (o.sent.all fun m => m.status == some Status.sent) &&
      (o.failed.all fun p => p.1.status == some Status.failed)) = true := by
  by_cases hq : get_queued cfg store now = []
  · simp [send_queued, hq]
  · have h0 : 0 < (get_queued cfg store now).length := List.length_pos.mpr hq
    have hempty : (get_queued cfg store now).isEmpty = false := by
      rw [List.isEmpty_eq_false]
      exact hq
    have hlt : ¬((get_queued cfg store now).length < 1) := by omega
    simp only [send_queued, hempty, Bool.false_eq_true, if_false, hlt,
      if_true]
    constructor
    · show ((dispatchAll B (get_queued cfg store now)).1.length,
        (dispatchAll B (get_queued cfg store now)).2.length) = _
      have hlen := length_filter_not_add (dispatchFails B)
        (get_queued cfg store now)
      rw [dispatchAll_sent, dispatchAll_failed]
      simp only [List.length_map]
      refine Prod.ext ?_ rfl
      show (List.filter (fun m => !(dispatchFails B m))
        (get_queued cfg store now)).length = _
      omega
    · simp only [List.all_cons, List.all_nil, Bool.and_true]
      rw [Bool.and_eq_true]
      exact ⟨(dispatchAll_statuses B _).1, (dispatchAll_statuses B _).2⟩

/-- C4: inside one _send_bulk partition, the dispatch outcome of every message
is captured by its own worker: the failing messages land in the failed bucket
paired with the raised exception, the others land in the sent bucket, the two
buckets partition the batch (no failure prevents a sibling dispatch), and the
function always returns the pair of bucket sizes instead of raising. -/
theorem send_bulk_isolates (B : Behavior) (cfg : Config) (smss : List SMS)
    (ll : Option Nat) :
    (_send_bulk B cfg smss ll).1.sent =
      (smss.filter fun m => !(dispatchFails B m)).map
        (fun m => (dispatchNoCommit B m).1) ∧
    (_send_bulk B cfg smss ll).1.failed =
      (smss.filter (dispatchFails B)).map
        (fun m => ((dispatchNoCommit B m).1, excOf B m)) ∧
    (_send_bulk B cfg smss ll).1.sent.length +
      (_send_bulk B cfg smss ll).1.failed.length = smss.length ∧
    (_send_bulk B cfg smss ll).2 =
      ((_send_bulk B cfg smss ll).1.sent.length,
        (_send_bulk B cfg smss ll).1.failed.length) := by
  refine ⟨dispatchAll_sent B smss, dispatchAll_failed B smss, ?_, rfl⟩
  have hlen := length_filter_not_add (dispatchFails B) smss
  show (dispatchAll B smss).1.length + (dispatchAll B smss).2.length
    = smss.length
  rw [dispatchAll_sent, dispatchAll_failed]
  simp only [List.length_map]
  omega

/-- C5: one _send_bulk partition at verbosity v issues, in this order: one
bulk-insert containing exactly one failed-status Log row per failing message,
carrying the message id, the string form of the raised exception and its type
name, when v >= 1 and a failure exists; then one bulk-insert containing
exactly one sent-status Log row per succeeding message when v = 2 and a
success exists; and no bulk-insert at all when v = 0. -/
theorem send_bulk_log_rows (B : Behavior) (cfg : Config) (smss : List SMS)
    (v : Nat) :
    (_send_bulk B cfg smss (some v)).1.bulkCalls =
      (if 1 ≤ v ∧ (smss.filter (dispatchFails B)) ≠ [] then
        [(smss.filter (dispatchFails B)).map fun m =>
          Log.mk m.id Status.failed (excOf B m).msg (excOf B m).name]
      else []) ++
      (if v = 2 ∧ (smss.filter fun m => !(dispatchFails B m)) ≠ [] then
        [(smss.filter fun m => !(dispatchFails B m)).map fun m =>
          Log.mk m.id Status.sent "" ""]
      else []) := by
  have hfail : (dispatchAll B smss).2.map
      (fun p => Log.mk p.1.id Status.failed p.2.msg p.2.name) =
      (smss.filter (dispatchFails B)).map fun m =>
        Log.mk m.id Status.failed (excOf B m).msg (excOf B m).name := by
    rw [dispatchAll_failed, List.map_map]
    refine List.map_congr_left ?_
    intro m hm
    simp [Function.comp, dispatchNoCommit_id]
  have hsent : (dispatchAll B smss).1.map
      (fun m => Log.mk m.id Status.sent "" "") =
      (smss.filter fun m => !(dispatchFails B m)).map fun m =>
        Log.mk m.id Status.sent "" "" := by
    rw [dispatchAll_sent, List.map_map]
    refine List.map_congr_left ?_
    intro m hm
    simp [Function.comp, dispatchNoCommit_id]
  simp only [_send_bulk, Option.getD_some]
  rw [hfail, hsent]
  simp only [ne_eq, List.map_eq_nil_iff]

/-- C10: with processes >= 2 and at least two selected messages, the explicit
log_level argument of send_queued is not forwarded to the worker partitions:
the run is identical to one invoked without the argument, and each partition
is the _send_bulk of its chunk at the configuration log level. -/
theorem send_queued_multiprocess_log_level (B : Behavior) (cfg : Config)
    (store : List SMS) (now : Now) (p v : Nat)
    (hp : 2 ≤ p) (hq : 2 ≤ (get_queued cfg store now).length) :
    send_queued B cfg store now p (some v) = send_queued B cfg store now p none ∧
    (send_queued B cfg store now p (some v)).partitions =
      (split_smss (get_queued cfg store now)
        (if (get_queued cfg store now).length < p then
          (get_queued cfg store now).length else p)).map
        (fun part => (_send_bulk B cfg part (some (get_log_level cfg))).1) := by
  have hne : get_queued cfg store now ≠ [] := by
    intro h
    rw [h] at hq
    simp at hq
  have hempty : (get_queued cfg store now).isEmpty = false := by
    rw [List.isEmpty_eq_false]
    exact hne
  have hprocs : ¬((if (get_queued cfg store now).length < p then
      (get_queued cfg store now).length else p) = 1) := by
    split <;> omega
  have hbulk : ∀ part : List SMS,
      _send_bulk B cfg part none = _send_bulk B cfg part (some (get_log_level cfg)) :=
    fun _ => rfl
  constructor
  · simp only [send_queued, hempty, Bool.false_eq_true, if_false, hprocs]
  · simp only [send_queued, hempty, Bool.false_eq_true, if_false, hprocs,
      List.map_map]
    refine List.map_congr_left ?_
    intro part hpart
    simp only [Function.comp_apply]
    rw [hbulk part]

/-- C10 witness: a two-message batch dispatched with processes=2 produces the
same run whether log_level is passed explicitly as 0 or left unset. -/
theorem send_queued_multiprocess_log_level_witness :
    (2 ≤ 2 ∧ 2 ≤ (get_queued cfgD
      [mkQueued 1 Priority.medium "ok", mkQueued 2 Priority.medium "bad"]
      now0).length) ∧
    send_queued bMix cfgD
      [mkQueued 1 Priority.medium "ok", mkQueued 2 Priority.medium "bad"]
      now0 2 (some 0)
      = send_queued bMix cfgD
        [mkQueued 1 Priority.medium "ok", mkQueued 2 Priority.medium "bad"]
        now0 2 none :=
  ⟨⟨by decide, by decide⟩,
    (send_queued_multiprocess_log_level bMix cfgD
      [mkQueued 1 Priority.medium "ok", mkQueued 2 Priority.medium "bad"]
      now0 2 0 (by decide) (by decide)).1⟩

end SmsEngine
